import Mathlib

/-!
Verification of the natural-language specification of `create-iso.py`
(repository ruddervirt/ruddervirtvirt-os) against a shallow embedding of the
script's logic.

The script is a linear build pipeline: credential acquisition (password hash
and/or GitHub SSH keys), Jinja2 template rendering to a temporary Butane file,
external-tool invocations (butane compile, ignition-validate, coreos-installer
download / iso extract / iso customize), with a `finally` cleanup block.

Embedding conventions:
- Pure helpers of the script become Lean functions with the same names
  (`hash_password_sha512`, `manifest_files`, `fetch_json`,
  `resolve_latest_fcos_release`, `build_live_rootfs_url`).
- The orchestration in `main` becomes an explicit state-passing function over
  a record of the relevant working-directory files, an environment record
  supplying the outcomes of all external interactions, and a trace of
  external-tool invocations.
- Python exceptions become `Except`; `sorted` over strings is modelled by an
  explicit lexicographic code-point comparison, exactly Python's order on the
  relevant ASCII data.
-/

/-! ## Python string ordering

Python compares strings lexicographically by Unicode code points.  We model
this directly on the character lists underlying Lean strings; `strLeAux` is
the non-strict comparison (`a <= b` in Python). -/

/-- Lexicographic code-point comparison of character lists, Python's `<=` on
strings: at the first position where the code points differ the smaller one
decides; a prefix is `<=` its extensions. -/
def strLeAux : List Char → List Char → Bool
  | [], _ => true
  | _ :: _, [] => false
  | c :: cs, d :: ds =>
    if c.toNat = d.toNat then strLeAux cs ds else decide (c.toNat < d.toNat)

/-- Python's `a <= b` on strings. -/
def pyStrLe (a b : String) : Bool := strLeAux a.data b.data

theorem strLeAux_refl : ∀ a, strLeAux a a = true
  | [] => rfl
  | _ :: cs => by simp [strLeAux, strLeAux_refl cs]

theorem strLeAux_total : ∀ a b, strLeAux a b = true ∨ strLeAux b a = true
  | [], _ => Or.inl rfl
  | _ :: _, [] => Or.inr rfl
  | c :: cs, d :: ds => by
    by_cases h : c.toNat = d.toNat
    · rcases strLeAux_total cs ds with ih | ih
      · exact Or.inl (by simp [strLeAux, h, ih])
      · exact Or.inr (by simp [strLeAux, h.symm, ih])
    · have h2 : ¬ d.toNat = c.toNat := fun x => h x.symm
      rcases Nat.lt_or_ge c.toNat d.toNat with hlt | hge
      · exact Or.inl (by simp [strLeAux, h, hlt])
      · have hlt : d.toNat < c.toNat := lt_of_le_of_ne hge h2
        exact Or.inr (by simp [strLeAux, h2, hlt])

theorem strLeAux_trans :
    ∀ a b c, strLeAux a b = true → strLeAux b c = true → strLeAux a c = true
  | [], _, _ => fun _ _ => rfl
  | _ :: _, [], _ => fun h _ => absurd h (by simp [strLeAux])
  | _ :: _, _ :: _, [] => fun _ h => absurd h (by simp [strLeAux])
  | a :: as, b :: bs, c :: cs => fun h1 h2 => by
    simp only [strLeAux] at h1 h2 ⊢
    by_cases e1 : a.toNat = b.toNat
    · by_cases e2 : b.toNat = c.toNat
      · have e3 : a.toNat = c.toNat := e1.trans e2
        rw [if_pos e3]
        rw [if_pos e1] at h1
        rw [if_pos e2] at h2
        exact strLeAux_trans as bs cs h1 h2
      · rw [if_neg e2] at h2
        have hbc : b.toNat < c.toNat := of_decide_eq_true h2
        have e3 : ¬ a.toNat = c.toNat := by omega
        rw [if_neg e3]
        exact decide_eq_true (by omega)
    · rw [if_neg e1] at h1
      have hab : a.toNat < b.toNat := of_decide_eq_true h1
      by_cases e2 : b.toNat = c.toNat
      · have e3 : ¬ a.toNat = c.toNat := by omega
        rw [if_neg e3]
        exact decide_eq_true (by omega)
      · rw [if_neg e2] at h2
        have hbc : b.toNat < c.toNat := of_decide_eq_true h2
        have e3 : ¬ a.toNat = c.toNat := by omega
        rw [if_neg e3]
        exact decide_eq_true (by omega)

theorem charToNat_inj {c d : Char} (h : c.toNat = d.toNat) : c = d :=
  Char.ext (UInt32.ext h)

theorem strLeAux_antisymm :
    ∀ a b, strLeAux a b = true → strLeAux b a = true → a = b
  | [], [] => fun _ _ => rfl
  | [], _ :: _ => fun _ h => absurd h (by simp [strLeAux])
  | _ :: _, [] => fun h _ => absurd h (by simp [strLeAux])
  | a :: as, b :: bs => fun h1 h2 => by
    simp only [strLeAux] at h1 h2
    by_cases e : a.toNat = b.toNat
    · rw [if_pos e] at h1
      rw [if_pos e.symm] at h2
      rw [charToNat_inj e, strLeAux_antisymm as bs h1 h2]
    · have e2 : ¬ b.toNat = a.toNat := fun x => e x.symm
      rw [if_neg e] at h1
      rw [if_neg e2] at h2
      have h1n : a.toNat < b.toNat := of_decide_eq_true h1
      have h2n : b.toNat < a.toNat := of_decide_eq_true h2
      omega

theorem stringDataInj {a b : String} (h : a.data = b.data) : a = b := by
  cases a
  cases b
  exact congrArg String.mk h

/-- Python's `a <= b` on strings, as a decidable relation. -/
def pyStrLeR (a b : String) : Prop := pyStrLe a b = true

instance : DecidableRel pyStrLeR := fun a b =>
  inferInstanceAs (Decidable (pyStrLe a b = true))

instance : IsTotal String pyStrLeR :=
  ⟨fun a b => strLeAux_total a.data b.data⟩

instance : IsTrans String pyStrLeR :=
  ⟨fun a b c => strLeAux_trans a.data b.data c.data⟩

instance : IsAntisymm String pyStrLeR :=
  ⟨fun a b h1 h2 => stringDataInj (strLeAux_antisymm a.data b.data h1 h2)⟩

/-- Python's `sorted` on a list of strings (code-point lexicographic order;
a stable sort, though stability is irrelevant at string equality). -/
def pySorted (xs : List String) : List String := List.insertionSort pyStrLeR xs

/-- Python's `sorted(set(xs))` on a list of strings: the sorted list of the
distinct elements of `xs`. -/
def pySortedSet (xs : List String) : List String := pySorted xs.dedup

theorem pySorted_sorted (xs : List String) : (pySorted xs).Sorted pyStrLeR :=
  List.sorted_insertionSort pyStrLeR xs

theorem pySorted_perm (xs : List String) : (pySorted xs).Perm xs :=
  List.perm_insertionSort pyStrLeR xs

theorem pySorted_mem {a : String} {xs : List String} : a ∈ pySorted xs ↔ a ∈ xs :=
  (pySorted_perm xs).mem_iff

theorem pySortedSet_sorted (xs : List String) : (pySortedSet xs).Sorted pyStrLeR :=
  pySorted_sorted xs.dedup

theorem pySortedSet_nodup (xs : List String) : (pySortedSet xs).Nodup :=
  ((pySorted_perm xs.dedup).nodup_iff).mpr (List.nodup_dedup xs)

theorem pySortedSet_mem {a : String} {xs : List String} :
    a ∈ pySortedSet xs ↔ a ∈ xs :=
  pySorted_mem.trans List.mem_dedup

theorem pySortedSet_eq_of_mem_iff {xs ys : List String}
    (h : ∀ a, a ∈ xs ↔ a ∈ ys) : pySortedSet xs = pySortedSet ys :=
  List.eq_of_perm_of_sorted
    ((List.perm_ext_iff_of_nodup (pySortedSet_nodup xs) (pySortedSet_nodup ys)).mpr
      (fun a => pySortedSet_mem.trans ((h a).trans pySortedSet_mem.symm)))
    (pySortedSet_sorted xs) (pySortedSet_sorted ys)

/-! ## Python exceptions -/

/-- The Python exception kinds raised by the script's own code paths. -/
inductive PyErr
  | valueError (msg : String)
  | runtimeError (msg : String)
  | osError (msg : String)
deriving DecidableEq

/-! ## Credential Resolver: `hash_password_sha512` (src/create-iso.py lines 45-48)

`sha512_crypt.hash` is an external library call (passlib) that always returns
a hash string for its input; it is passed in as a function parameter. -/

/-- `hash_password_sha512` (lines 45-48): `if not plaintext_password: raise
ValueError(...)` — for an argument of type `str`, falsiness is exactly the
empty string — otherwise return `sha512_crypt.hash(plaintext_password)`. -/
def hash_password_sha512 (sha512CryptHash : String → String)
    (plaintext_password : String) : Except PyErr String :=
  if plaintext_password = "" then
    .error (.valueError "Password must not be empty")
  else
    .ok (sha512CryptHash plaintext_password)

/-! ## Template directive `manifest_files` (src/create-iso.py lines 70-87)

The directive inspects the `manifests` subdirectory of the template directory.
We model the state of that path (absent / present-but-not-a-directory /
directory with entries) and each directory entry by its name and whether it is
a regular file (`Path.is_file`). -/

/-- A directory entry as observed by `Path.iterdir`: its final-component name
and whether `is_file()` holds for it. -/
structure DirEntry where
  name : String
  isFile : Bool
deriving DecidableEq

/-- The state of the `manifests` path on disk. -/
inductive PathState
  | absent
  | notADirectory
  | directory (entries : List DirEntry)

/-- Indices of the character `.` inside a character list. -/
def dotIdxs (cs : List Char) : List Nat :=
  (List.range cs.length).filter (fun i => cs.getD i ' ' = '.')

/-- `pathlib.PurePath.suffix` for a single-component name: the substring from
the last `.` on, provided that dot is neither the leading character nor the
final character; otherwise the empty string. -/
def pySuffix (name : String) : String :=
  let cs := name.data
  match (dotIdxs cs).getLast? with
  | none => ""
  | some i => if 0 < i ∧ i + 1 < cs.length then String.mk (cs.drop i) else ""

/-- ASCII lowercasing of one character (Python `str.lower` restricted to the
ASCII range, which covers the `.yaml`/`.yml`/`.YAML`-style data involved). -/
def asciiLowerChar (c : Char) : Char :=
  if 65 ≤ c.toNat ∧ c.toNat ≤ 90 then Char.ofNat (c.toNat + 32) else c

/-- Python `str.lower`, ASCII range. -/
def pyLower (s : String) : String := String.mk (s.data.map asciiLowerChar)

/-- Python `name.startswith(".")`: the first character is a dot. -/
def startsWithDot (s : String) : Bool :=
  match s.data with
  | [] => false
  | c :: _ => c = '.'

/-- The filter applied to each entry in the loop of lines 78-85: skip
non-regular files, skip hidden names, skip suffixes (lowercased) outside
`(".yaml", ".yml")`; an entry is kept when none of the three `continue`s
fires. -/
def manifestKeep (e : DirEntry) : Bool :=
  e.isFile && !startsWithDot e.name &&
    (pyLower (pySuffix e.name) = ".yaml" || pyLower (pySuffix e.name) = ".yml")

/-- `manifest_files` (lines 70-87): `[]` if the `manifests` path does not
exist; `ValueError` if it exists but is not a directory; otherwise the sorted
names of the entries that survive the filter. -/
def manifest_files : PathState → Except PyErr (List String)
  | .absent => .ok []
  | .notADirectory => .error (.valueError "manifests must be a directory")
  | .directory entries =>
      .ok (pySorted ((entries.filter manifestKeep).map DirEntry.name))

/-! ## Release Resolver (src/create-iso.py lines 130-170)

`fetch_json` performs an HTTP GET and `json.loads`; `resolve_latest_fcos_release`
walks the nested dictionaries `architectures / <arch> / artifacts / metal /
release`.  We embed JSON values, dictionary lookup (any non-dictionary access
or missing key yields `none`, matching the `except Exception` around the
chained subscript), Python truthiness, and the observable outcomes of the
HTTP-plus-parse step. -/

/-- JSON values. -/
inductive Json
  | null
  | bool (b : Bool)
  | num (n : Int)
  | str (s : String)
  | arr (elems : List Json)
  | obj (fields : List (String × Json))

/-- First value bound to a key in a field list (Python dict keys are unique,
so first-match lookup agrees with dict lookup). -/
def lookupField : List (String × Json) → String → Option Json
  | [], _ => none
  | (k, v) :: rest, key => if k = key then some v else lookupField rest key

/-- Python `data[key]` restricted to the success/failure information the
script observes: a value when `data` is a dictionary holding `key`, otherwise
`none` (in the script every failing subscript raises and is mapped to `None`
by the surrounding `except Exception`). -/
def Json.lookup : Json → String → Option Json
  | .obj fields, key => lookupField fields key
  | _, _ => none

/-- Python truthiness of a JSON value (`if not release`). -/
def Json.truthy : Json → Bool
  | .null => false
  | .bool b => b
  | .num n => decide (n ≠ 0)
  | .str s => decide (s ≠ "")
  | .arr elems => !elems.isEmpty
  | .obj fields => !fields.isEmpty

/-- Python `str()` of a JSON value as used in the f-string building the
rootfs filename.  The stream metadata holds the release as a JSON string, and
the composite renderings are never observed by any property below, so they
are abbreviated. -/
def Json.pyStr : Json → String
  | .null => "None"
  | .bool true => "True"
  | .bool false => "False"
  | .num n => toString n
  | .str s => s
  | .arr _ => "<list>"
  | .obj _ => "<dict>"

/-- The outcome of `urllib.request.urlopen` plus `json.loads` on the stream
metadata URL: the request may raise (unreachable), or return a status code
and a body that either parses to a JSON document or does not. -/
inductive HttpJsonOutcome
  | unreachable
  | resp (code : Nat) (parsed : Option Json)

/-- The errors `resolve_latest_fcos_release` can propagate. -/
inductive MetaErr
  | unreachable
  | non200 (code : Nat)
  | malformed
  | missingRelease
deriving DecidableEq

/-- `fetch_json` (lines 130-136): `urlopen` failure propagates; a non-200
status raises `RuntimeError`; a body `json.loads` rejects raises; otherwise
the parsed document is returned. -/
def fetch_json : HttpJsonOutcome → Except MetaErr Json
  | .unreachable => .error .unreachable
  | .resp code parsed =>
    if code ≠ 200 then .error (.non200 code)
    else
      match parsed with
      | none => .error .malformed
      | some j => .ok j

/-- The chained subscript of line 146 under its `except Exception`:
`data["architectures"][arch]["artifacts"]["metal"]["release"]`, `none` when
any step fails. -/
def releasePathLookup (data : Json) (arch : String) : Option Json :=
  ((((data.lookup "architectures").bind (fun a => a.lookup arch)).bind
      (fun a => a.lookup "artifacts")).bind
      (fun a => a.lookup "metal")).bind
      (fun a => a.lookup "release")

/-- `resolve_latest_fcos_release` (lines 139-156).  The `stream` argument only
selects the URL and hence which document the outcome parameter describes; the
lookup failure and the falsy-value case share one `RuntimeError`. -/
def resolve_latest_fcos_release (outcome : HttpJsonOutcome)
    (_stream arch : String) : Except MetaErr Json :=
  match fetch_json outcome with
  | .error e => .error e
  | .ok data =>
    match releasePathLookup data arch with
    | none => .error .missingRelease
    | some v => if v.truthy then .ok v else .error .missingRelease

/-- `build_live_rootfs_url` (lines 159-170): pure string construction. -/
def build_live_rootfs_url (stream arch release : String) : String :=
  "https://builds.coreos.fedoraproject.org/prod/streams/" ++ stream ++
    "/builds/" ++ release ++ "/" ++ arch ++ "/" ++
    "fedora-coreos-" ++ release ++ "-live-rootfs." ++ arch ++ ".img"

/-! ## Template Renderer (src/create-iso.py lines 51-110)

`template_butane` builds a Jinja2 `Environment` (lines 61-65) with a
filesystem loader, `autoescape=False` and `keep_trailing_newline=True` — and
no `undefined=` argument, so variable lookups use the Jinja2 default
`Undefined` class, whose string rendering is the empty string.  We embed the
fragment of Jinja2 the rendered template exercises that is relevant to
variable resolution: literal text and plain variable interpolations, over a
finite name-to-rendered-text context. -/

/-- A template fragment: literal text or a plain `{ { name } }`-style variable
interpolation. -/
inductive TemplateNode
  | lit (text : String)
  | var (name : String)
deriving DecidableEq

/-- Association-list lookup for the render context. -/
def lookupStr : List (String × String) → String → Option String
  | [], _ => none
  | (k, v) :: rest, key => if k = key then some v else lookupStr rest key

/-- Jinja2 rendering with the default `Undefined` (the configuration built at
lines 61-65): a defined variable substitutes its value, an undefined variable
renders as the empty string, and rendering never raises on a plain variable
reference. -/
def jinjaRenderDefault (ctx : List (String × String)) : List TemplateNode → String
  | [] => ""
  | .lit t :: rest => t ++ jinjaRenderDefault ctx rest
  | .var n :: rest =>
      (match lookupStr ctx n with
       | some v => v
       | none => "") ++ jinjaRenderDefault ctx rest

/-- Modelled from the spec: the renderer the specification describes, with
"any template variable reference not present in the context is a fatal
`TemplateRenderError` (no silent blanks)" — i.e. Jinja2 under
`StrictUndefined`, which the source does not configure.  Kept for comparison
with `jinjaRenderDefault`. -/
def renderStrictSpec (ctx : List (String × String)) :
    List TemplateNode → Except PyErr String
  | [] => .ok ""
  | .lit t :: rest =>
      match renderStrictSpec ctx rest with
      | .ok s => .ok (t ++ s)
      | .error e => .error e
  | .var n :: rest =>
      match lookupStr ctx n with
      | none => .error (.runtimeError "TemplateRenderError")
      | some v =>
        match renderStrictSpec ctx rest with
        | .ok s => .ok (v ++ s)
        | .error e => .error e

/-- Longest length among a list of path strings. -/
def maxLen (fs : List String) : Nat := fs.foldr (fun s m => max s.length m) 0

theorem length_le_maxLen {s : String} :
    ∀ {fs : List String}, s ∈ fs → s.length ≤ maxLen fs
  | [], h => absurd h (List.not_mem_nil s)
  | x :: xs, h => by
    have hm : maxLen (x :: xs) = max x.length (maxLen xs) := rfl
    rcases List.mem_cons.mp h with rfl | hmem
    · rw [hm]; exact le_max_left _ _
    · rw [hm]; exact le_trans (length_le_maxLen hmem) (le_max_right _ _)

/-- `tempfile.mkstemp` returns a path that did not previously exist; the model
realizes that contract with a name longer than every existing path. -/
def freshTempName (fs : List String) : String :=
  String.mk (List.replicate (maxLen fs + 1) 'a')

theorem freshTempName_not_mem (fs : List String) : freshTempName fs ∉ fs := by
  intro h
  have hle := length_le_maxLen h
  have hlen : (freshTempName fs).length = maxLen fs + 1 := by
    simp [freshTempName, String.length]
  omega

/-- The value `template_butane` returns on success: the fresh temporary path,
paired here with the document written into it. -/
structure RenderedFile where
  temp_path : String
  content : String
deriving DecidableEq

/-- `template_butane` (lines 51-105, successful-write case): load the template
from the template directory (`TemplateNotFound` propagates if the source
template is absent), render it with the default-`Undefined` environment, and
write the result to a fresh `mkstemp` path, returning that path. -/
def template_butane (fs : List String) (butane_file : String)
    (ctx : List (String × String)) (tmpl : List TemplateNode) :
    Except PyErr RenderedFile :=
  if butane_file ∈ fs then
    .ok { temp_path := freshTempName fs, content := jinjaRenderDefault ctx tmpl }
  else
    .error (.valueError "TemplateNotFound")

/-! ## The temporary-file write block (src/create-iso.py lines 100-110)

```
temp_fd, temp_path = tempfile.mkstemp(...)
try:
    with os.fdopen(temp_fd, 'w') as f:
        f.write(rendered_content)
    ...
    return temp_path
except Exception:
    os.close(temp_fd)
    if os.path.exists(temp_path):
        os.unlink(temp_path)
    raise
```

We model the two pieces of state the block manipulates — whether the mkstemp
file descriptor is open and whether the mkstemp path exists — together with
the OS primitives: `os.close` on an already-closed descriptor raises
`OSError` (EBADF); `os.fdopen` transfers ownership of the descriptor to the
file object, so leaving the `with` suite (normally or by exception) closes
it. -/

/-- State of the mkstemp descriptor and path. -/
structure TmpState where
  fdOpen : Bool
  fileExists : Bool
deriving DecidableEq

/-- `os.close(temp_fd)`: closes an open descriptor; raises `OSError` on an
already-closed one. -/
def osCloseFd (s : TmpState) : Except PyErr TmpState :=
  if s.fdOpen then .ok { s with fdOpen := false }
  else .error (.osError "EBADF")

/-- The `except Exception:` handler of lines 106-110: `os.close(temp_fd)`,
then `if os.path.exists(temp_path): os.unlink(temp_path)`, then `raise`.  If
`os.close` itself raises, the unlink statement is never reached and the new
`OSError` propagates instead of the original exception; either way an
exception leaves the handler. -/
def exceptCleanup (s : TmpState) : TmpState :=
  match osCloseFd s with
  | .error _ => s
  | .ok s1 => if s1.fileExists then { s1 with fileExists := false } else s1

/-- How the body of the `try` can go: `os.fdopen` itself raises (the
descriptor is still open and unowned); `f.write` raises after `os.fdopen`
succeeded (the `with` suite closes the descriptor while unwinding, before the
handler runs); or everything succeeds. -/
inductive WriteScenario
  | fdopenRaises
  | writeRaises
  | ok
deriving DecidableEq

/-- Outcome of the whole block: whether an exception propagates out of it,
and the final descriptor/path state.  `mkstemp` leaves
`{ fdOpen := true, fileExists := true }`. -/
structure WriteOutcome where
  raised : Bool
  final : TmpState
deriving DecidableEq

/-- The block of lines 100-110 as a function of the scenario. -/
def writeRenderedTemp : WriteScenario → WriteOutcome
  | .ok =>
      { raised := false, final := { fdOpen := false, fileExists := true } }
  | .fdopenRaises =>
      { raised := true, final := exceptCleanup { fdOpen := true, fileExists := true } }
  | .writeRaises =>
      { raised := true, final := exceptCleanup { fdOpen := false, fileExists := true } }

/-! ## Pipeline Orchestrator: `main` (src/create-iso.py lines 173-334)

`main` is embedded as an explicit state-passing function.  The state records
the relevant filesystem facts; the environment supplies every external
interaction's outcome (GitHub key fetches, the passlib hash, whether each
external tool run exits 0, whether the download's `glob("*.iso")` finds a
file, and the stream-metadata HTTP outcome); the output records the exit
status (as the exception class that forced exit 1, or success), the final
filesystem state after the `finally` block, the ordered trace of external-tool
invocations issued through `run_command`, and the context passed to
`template_butane` if that call was reached.

`KeyboardInterrupt` (an asynchronous signal) is outside the model; every
other path of `main` is covered. -/

/-- Parsed command-line arguments (lines 174-204). -/
structure Args where
  install_disk : String
  password : Option String
  github_ssh_user : List String
  disable_autoupdate : Bool
  show_butane : Bool
  show_ignition : Bool

/-- The working files `main` manipulates: `fedora-coreos.iso` (the cached base
image), `minimal.iso` (the intermediate minimal image),
`/output/ruddervirtvirt-install.iso` (the final artifact), the mkstemp-rendered
Butane file, and `server.ign` (the compiled ignition). -/
structure FS where
  fedora_iso : Bool
  minimal_iso : Bool
  output_iso : Bool
  temp_butane : Bool
  output_ignition : Bool
deriving DecidableEq

/-- The five external-tool invocations issued through `run_command`. -/
inductive Tool
  | compile
  | validate
  | download
  | extract
  | customize
deriving DecidableEq

/-- Exit status of a run of `main`: `ok` is exit 0; every other constructor
names the condition that forced exit 1. -/
inductive RunResult
  | ok
  | configError
  | renderError
  | toolFailed (t : Tool)
  | downloadMissing
  | metadataError
deriving DecidableEq

/-- The keyword arguments `main` passes to `template_butane` (lines 230-236). -/
structure RenderCtx where
  password_hash : Option String
  ssh_keys : List String
  disable_autoupdate : Bool
  disk_path : Option String
deriving DecidableEq

/-- Outcomes of all external interactions of one run.  `fetch_keys` is
`fetch_github_ssh_keys` per username — that function is total, returning `[]`
on HTTP or network failure (lines 24-41).  `sha512_hash` is
`passlib.sha512_crypt.hash`.  `render` is how `template_butane` goes: `none`
when it raises before `tempfile.mkstemp` (missing template, template-level
error — no temporary file exists yet), `some s` when the mkstemp write block
of lines 100-110 runs with scenario `s` (`template_butane` returns exactly
when `s` does not raise).  The `*_ok` booleans are exit-0 of the
corresponding tool; `download_found` is whether `glob("*.iso")` matches after
the download (lines 267-274). -/
structure Env where
  fetch_keys : String → List String
  sha512_hash : String → String
  render : Option WriteScenario
  compile_ok : Bool
  validate_ok : Bool
  download_found : Bool
  stream_metadata : HttpJsonOutcome
  extract_ok : Bool
  customize_ok : Bool

/-- The observable outcome of one run of `main`.  `rendered` is the context
`main` passed to `template_butane` when that call returned (`none` when the
render stage was never reached or raised). -/
structure RunOut where
  result : RunResult
  fs : FS
  tools : List Tool
  rendered : Option RenderCtx

/-- Python truthiness of the optional `password` argument: `argparse` leaves
it `None` when absent; an empty string is also falsy. -/
def pyTruthy : Option String → Bool
  | none => false
  | some s => decide (s ≠ "")

/-- Lines 217-221 and 233: the per-identity key lists are concatenated
(`ssh_keys.extend(...)` in the loop), collapsed by `set(...)`, and passed to
`template_butane` as `sorted(ssh_keys)`. -/
def mergedSshKeys (fetch : String → List String) (users : List String) :
    List String :=
  pySortedSet (users.map fetch).flatten

/-- The `finally` block (lines 331-334): when `temp_butane_file` was assigned
(the render returned) and the file exists, unlink it; otherwise nothing. -/
def finallyCleanup (tempAssigned : Bool) (fs : FS) : FS :=
  if tempAssigned && fs.temp_butane then { fs with temp_butane := false } else fs

/-- Lines 223-236: the password hash (`hash_password_sha512` cannot raise
here, its argument being guarded non-empty) — `None` when the password is
absent or empty. -/
def mainPasswordHash (env : Env) (args : Args) : Option String :=
  match args.password with
  | some p => if p ≠ "" then some (env.sha512_hash p) else none
  | none => none

/-- The context `main` passes to `template_butane` (lines 230-236). -/
def mkRenderCtx (env : Env) (args : Args) : RenderCtx :=
  { password_hash := mainPasswordHash env args
    ssh_keys := mergedSshKeys env.fetch_keys args.github_ssh_user
    disable_autoupdate := args.disable_autoupdate
    disk_path := some args.install_disk }

/-- Lines 276-323: from the removal of any pre-existing output ISO through
release resolution, extraction, customization, and the success-path removals
of `minimal.iso` and `fedora-coreos.iso` — entered with the base image
present; `ts` is the tool trace accumulated so far.  Every exit passes
through the `finally` cleanup with `temp_butane_file` assigned. -/
def pipelineTail (env : Env) (ctx : RenderCtx) (fs : FS) (ts : List Tool) :
    RunOut :=
  let fs4 : FS := { fs with output_iso := false }
  match resolve_latest_fcos_release env.stream_metadata "stable" "x86_64" with
  | .error _ =>
      { result := .metadataError, fs := finallyCleanup true fs4,
        tools := ts, rendered := some ctx }
  | .ok rel =>
    let _rootfs_url := build_live_rootfs_url "stable" "x86_64" rel.pyStr
    let fs5 : FS := { fs4 with minimal_iso := false }
    if env.extract_ok then
      let fs6 : FS := { fs5 with minimal_iso := true }
      if env.customize_ok then
        { result := .ok,
          fs := finallyCleanup true
            { fs6 with output_iso := true, minimal_iso := false, fedora_iso := false },
          tools := ts ++ [.extract, .customize], rendered := some ctx }
      else
        { result := .toolFailed .customize, fs := finallyCleanup true fs6,
          tools := ts ++ [.extract, .customize], rendered := some ctx }
    else
      { result := .toolFailed .extract, fs := finallyCleanup true fs5,
        tools := ts ++ [.extract], rendered := some ctx }

/-- Lines 252-274: the acquire-base-image stage.  If `fedora-coreos.iso`
exists the stage is a no-op; otherwise the downloader runs, and the glob
either finds a file that is renamed to the cache name or the run exits 1. -/
def acquireAndTail (env : Env) (ctx : RenderCtx) (fs : FS) : RunOut :=
  if fs.fedora_iso then
    pipelineTail env ctx fs [.compile, .validate]
  else if env.download_found then
    pipelineTail env ctx { fs with fedora_iso := true }
      [.compile, .validate, .download]
  else
    { result := .downloadMissing, fs := finallyCleanup true fs,
      tools := [.compile, .validate, .download], rendered := some ctx }

/-- Lines 242-250: the compile (`butane --pretty --strict`, writing
`server.ign`) and validate (`ignition-validate`) stages, entered with the
rendered temporary file on disk. -/
def afterRender (env : Env) (ctx : RenderCtx) (fs : FS) : RunOut :=
  if env.compile_ok then
    let fs2 : FS := { fs with output_ignition := true }
    if env.validate_ok then
      acquireAndTail env ctx fs2
    else
      { result := .toolFailed .validate, fs := finallyCleanup true fs2,
        tools := [.compile, .validate], rendered := some ctx }
  else
    { result := .toolFailed .compile, fs := finallyCleanup true fs,
      tools := [.compile], rendered := some ctx }

/-- `main` (lines 173-334).  Credential acquisition and the
credential-required check (lines 217-228), then the render (lines 230-237,
`temp_butane_file` assigned only if `template_butane` returns), then the
staged pipeline; every exit path runs the `finally` block, with
`temp_butane_file` still `None` on the paths that fail before or inside the
render.  Whether the mkstemp file exists after the render stage is taken
from the `writeRenderedTemp` model of lines 100-110: in particular a
`writeRaises` failure leaves the file on disk while `temp_butane_file` is
`None`, so the `finally` block does not remove it and the failed run leaks
it. -/
def main_run (env : Env) (args : Args) (fs0 : FS) : RunOut :=
  if pyTruthy args.password ||
      !((args.github_ssh_user.map env.fetch_keys).flatten).isEmpty then
    match env.render with
    | none =>
        { result := .renderError, fs := finallyCleanup false fs0,
          tools := [], rendered := none }
    | some s =>
        if (writeRenderedTemp s).raised then
          { result := .renderError,
            fs := finallyCleanup false
              { fs0 with temp_butane := (writeRenderedTemp s).final.fileExists },
            tools := [], rendered := none }
        else
          afterRender env (mkRenderCtx env args)
            { fs0 with temp_butane := (writeRenderedTemp s).final.fileExists }
  else
    { result := .configError, fs := finallyCleanup false fs0,
      tools := [], rendered := none }

/-! ## Concrete fixtures used by counterexamples and witnesses -/

/-- A stream-metadata document of the shape the script expects. -/
def exampleStreamDoc : Json :=
  .obj [("architectures", .obj [("x86_64", .obj [("artifacts",
    .obj [("metal", .obj [("release", .str "42.20250101.3.0")])])])])]

/-- An environment in which every external interaction succeeds and no GitHub
user yields keys. -/
def envAllOk : Env :=
  { fetch_keys := fun _ => []
    sha512_hash := fun p => "$6$modelsalt$" ++ p
    render := some .ok
    compile_ok := true
    validate_ok := true
    download_found := true
    stream_metadata := .resp 200 (some exampleStreamDoc)
    extract_ok := true
    customize_ok := true }

/-- `envAllOk` but with the customize tool exiting non-zero. -/
def envCustomizeFails : Env := { envAllOk with customize_ok := false }

/-- Arguments with a password and no GitHub identities. -/
def argsPassword : Args :=
  { install_disk := "/dev/sda", password := some "hunter2",
    github_ssh_user := [], disable_autoupdate := false,
    show_butane := false, show_ignition := false }

/-- Arguments with no password and one GitHub identity. -/
def argsNoCreds : Args :=
  { argsPassword with password := none, github_ssh_user := ["octocat"] }

/-- Working directory holding only the cached base image. -/
def fsWithCache : FS :=
  { fedora_iso := true, minimal_iso := false, output_iso := false,
    temp_butane := false, output_ignition := false }

/-- Empty working directory. -/
def fsEmpty : FS :=
  { fedora_iso := false, minimal_iso := false, output_iso := false,
    temp_butane := false, output_ignition := false }

/-- Key service of the spec's worked example: "alice" yields k1,k2 and "bob"
yields k2,k3. -/
def exampleFetch : String → List String :=
  fun u =>
    if u = "alice" then ["k1", "k2"]
    else if u = "bob" then ["k2", "k3"]
    else []

/-- The manifests directory of the spec's worked example. -/
def exampleManifestsDir : List DirEntry :=
  [{ name := "a.yaml", isFile := true }, { name := "b.txt", isFile := true },
   { name := ".hidden.yaml", isFile := true }]

/-- A render context binding the four names `main` supplies. -/
def exampleCtx : List (String × String) :=
  [("password_hash", "$6$modelsalt$hunter2"), ("ssh_keys", ""),
   ("disable_autoupdate", "False"), ("disk_path", "/dev/sda")]

/-! ## Helper lemmas about the cleanup and the pipeline stages -/

theorem finallyCleanup_false (fs : FS) : finallyCleanup false fs = fs := rfl

theorem finallyCleanup_true_temp (fs : FS) :
    (finallyCleanup true fs).temp_butane = false := by
  cases h : fs.temp_butane <;> simp [finallyCleanup, h]

theorem finallyCleanup_minimal (b : Bool) (fs : FS) :
    (finallyCleanup b fs).minimal_iso = fs.minimal_iso := by
  cases h : (b && fs.temp_butane) <;> simp [finallyCleanup, h]

theorem finallyCleanup_fedora (b : Bool) (fs : FS) :
    (finallyCleanup b fs).fedora_iso = fs.fedora_iso := by
  cases h : (b && fs.temp_butane) <;> simp [finallyCleanup, h]

theorem pipelineTail_temp (env : Env) (ctx : RenderCtx) (fs : FS) (ts : List Tool) :
    (pipelineTail env ctx fs ts).fs.temp_butane = false := by
  unfold pipelineTail
  cases hres : resolve_latest_fcos_release env.stream_metadata "stable" "x86_64" with
  | error e => simp [finallyCleanup_true_temp]
  | ok rel =>
    cases he : env.extract_ok with
    | false => simp [he, finallyCleanup_true_temp]
    | true =>
      cases hc : env.customize_ok <;> simp [he, hc, finallyCleanup_true_temp]

theorem pipelineTail_rendered (env : Env) (ctx : RenderCtx) (fs : FS) (ts : List Tool) :
    (pipelineTail env ctx fs ts).rendered = some ctx := by
  unfold pipelineTail
  cases hres : resolve_latest_fcos_release env.stream_metadata "stable" "x86_64" with
  | error e => simp
  | ok rel =>
    cases he : env.extract_ok with
    | false => simp [he]
    | true => cases hc : env.customize_ok <;> simp [he, hc]

theorem pipelineTail_ok_fs (env : Env) (ctx : RenderCtx) (fs : FS) (ts : List Tool)
    (h : (pipelineTail env ctx fs ts).result = .ok) :
    (pipelineTail env ctx fs ts).fs.minimal_iso = false ∧
    (pipelineTail env ctx fs ts).fs.fedora_iso = false := by
  unfold pipelineTail at h ⊢
  cases hres : resolve_latest_fcos_release env.stream_metadata "stable" "x86_64" with
  | error e => simp [hres] at h
  | ok rel =>
    cases he : env.extract_ok with
    | false => simp [hres, he] at h
    | true =>
      cases hc : env.customize_ok with
      | false => simp [hres, he, hc] at h
      | true => simp [he, hc, finallyCleanup_minimal, finallyCleanup_fedora]

theorem pipelineTail_tools_mem (env : Env) (ctx : RenderCtx) (fs : FS) (ts : List Tool) :
    ∀ t ∈ (pipelineTail env ctx fs ts).tools,
      t ∈ ts ∨ t = Tool.extract ∨ t = Tool.customize := by
  unfold pipelineTail
  cases hres : resolve_latest_fcos_release env.stream_metadata "stable" "x86_64" with
  | error e => intro t ht; exact Or.inl (by simpa using ht)
  | ok rel =>
    cases he : env.extract_ok with
    | false =>
      intro t ht
      rcases (by simpa [he] using ht : t ∈ ts ∨ t = Tool.extract) with h | h
      · exact Or.inl h
      · exact Or.inr (Or.inl h)
    | true =>
      cases hc : env.customize_ok <;>
        · intro t ht
          rcases (by simpa [he, hc] using ht :
              t ∈ ts ∨ t = Tool.extract ∨ t = Tool.customize) with h | h
          · exact Or.inl h
          · exact Or.inr h

theorem acquireAndTail_temp (env : Env) (ctx : RenderCtx) (fs : FS) :
    (acquireAndTail env ctx fs).fs.temp_butane = false := by
  unfold acquireAndTail
  cases hf : fs.fedora_iso with
  | true => simp [hf, pipelineTail_temp]
  | false =>
    cases hd : env.download_found with
    | true => simp [hf, hd, pipelineTail_temp]
    | false => simp [hf, hd, finallyCleanup_true_temp]

theorem acquireAndTail_rendered (env : Env) (ctx : RenderCtx) (fs : FS) :
    (acquireAndTail env ctx fs).rendered = some ctx := by
  unfold acquireAndTail
  cases hf : fs.fedora_iso with
  | true => simp [hf, pipelineTail_rendered]
  | false =>
    cases hd : env.download_found with
    | true => simp [hf, hd, pipelineTail_rendered]
    | false => simp [hf, hd]

theorem acquireAndTail_ok_fs (env : Env) (ctx : RenderCtx) (fs : FS)
    (h : (acquireAndTail env ctx fs).result = .ok) :
    (acquireAndTail env ctx fs).fs.minimal_iso = false ∧
    (acquireAndTail env ctx fs).fs.fedora_iso = false := by
  unfold acquireAndTail at h ⊢
  cases hf : fs.fedora_iso with
  | true =>
    simp only [hf, if_true] at h ⊢
    exact pipelineTail_ok_fs _ _ _ _ h
  | false =>
    cases hd : env.download_found with
    | true =>
      simp only [hf, hd, Bool.false_eq_true, if_false, if_true] at h ⊢
      exact pipelineTail_ok_fs _ _ _ _ h
    | false => simp [hf, hd] at h

theorem acquireAndTail_no_download (env : Env) (ctx : RenderCtx) (fs : FS)
    (hf : fs.fedora_iso = true) :
    Tool.download ∉ (acquireAndTail env ctx fs).tools := by
  intro hmem
  unfold acquireAndTail at hmem
  rw [hf] at hmem
  simp only [if_true] at hmem
  rcases pipelineTail_tools_mem env ctx fs [Tool.compile, Tool.validate]
      Tool.download hmem with h | h | h
  · simp at h
  · exact Tool.noConfusion h
  · exact Tool.noConfusion h

theorem afterRender_temp (env : Env) (ctx : RenderCtx) (fs : FS) :
    (afterRender env ctx fs).fs.temp_butane = false := by
  unfold afterRender
  cases hc : env.compile_ok with
  | false => simp [hc, finallyCleanup_true_temp]
  | true =>
    cases hv : env.validate_ok with
    | false => simp [hc, hv, finallyCleanup_true_temp]
    | true => simp [hc, hv, acquireAndTail_temp]

theorem afterRender_rendered (env : Env) (ctx : RenderCtx) (fs : FS) :
    (afterRender env ctx fs).rendered = some ctx := by
  unfold afterRender
  cases hc : env.compile_ok with
  | false => simp [hc]
  | true =>
    cases hv : env.validate_ok with
    | false => simp [hc, hv]
    | true => simp [hc, hv, acquireAndTail_rendered]

theorem afterRender_ok_fs (env : Env) (ctx : RenderCtx) (fs : FS)
    (h : (afterRender env ctx fs).result = .ok) :
    (afterRender env ctx fs).fs.minimal_iso = false ∧
    (afterRender env ctx fs).fs.fedora_iso = false := by
  unfold afterRender at h ⊢
  cases hc : env.compile_ok with
  | false => simp [hc] at h
  | true =>
    cases hv : env.validate_ok with
    | false => simp [hc, hv] at h
    | true =>
      simp only [hc, hv, if_true] at h ⊢
      exact acquireAndTail_ok_fs _ _ _ h

theorem afterRender_no_download (env : Env) (ctx : RenderCtx) (fs : FS)
    (hf : fs.fedora_iso = true) :
    Tool.download ∉ (afterRender env ctx fs).tools := by
  intro hmem
  unfold afterRender at hmem
  cases hc : env.compile_ok with
  | false => rw [hc] at hmem; simp at hmem
  | true =>
    cases hv : env.validate_ok with
    | false => rw [hc, hv] at hmem; simp at hmem
    | true =>
      rw [hc, hv] at hmem
      simp only [if_true] at hmem
      exact acquireAndTail_no_download env ctx _ (by simpa using hf) hmem

theorem main_run_temp (env : Env) (args : Args) (fs0 : FS)
    (h0 : fs0.temp_butane = false) (hr : env.render = some .ok) :
    (main_run env args fs0).fs.temp_butane = false := by
  unfold main_run
  cases hc : (pyTruthy args.password ||
      !((args.github_ssh_user.map env.fetch_keys).flatten).isEmpty) with
  | false => simp [hc, finallyCleanup_false, h0]
  | true => simp [hc, hr, writeRenderedTemp, afterRender_temp]

theorem main_run_ok_fs (env : Env) (args : Args) (fs0 : FS)
    (h : (main_run env args fs0).result = .ok) :
    (main_run env args fs0).fs.minimal_iso = false ∧
    (main_run env args fs0).fs.fedora_iso = false := by
  unfold main_run at h ⊢
  cases hc : (pyTruthy args.password ||
      !((args.github_ssh_user.map env.fetch_keys).flatten).isEmpty) with
  | false => simp [hc] at h
  | true =>
    cases hr : env.render with
    | none => simp [hc, hr] at h
    | some s =>
      cases s with
      | fdopenRaises => simp [hc, hr, writeRenderedTemp] at h
      | writeRaises => simp [hc, hr, writeRenderedTemp] at h
      | ok =>
        simp only [hc, hr, writeRenderedTemp, if_true] at h ⊢
        exact afterRender_ok_fs _ _ _ (by simpa using h)

theorem main_run_rendered (env : Env) (args : Args) (fs0 : FS) :
    (main_run env args fs0).rendered = none ∨
    (main_run env args fs0).rendered = some (mkRenderCtx env args) := by
  unfold main_run
  cases hc : (pyTruthy args.password ||
      !((args.github_ssh_user.map env.fetch_keys).flatten).isEmpty) with
  | false => simp [hc]
  | true =>
    cases hr : env.render with
    | none => simp [hc, hr]
    | some s =>
      cases s with
      | fdopenRaises => simp [hc, hr, writeRenderedTemp]
      | writeRaises => simp [hc, hr, writeRenderedTemp]
      | ok => simp [hc, hr, writeRenderedTemp, afterRender_rendered]

/-- The write-failure leak reaches `main`: when `template_butane` fails at
the write step (lines 100-110, scenario `writeRaises`), `temp_butane_file`
is still `None`, the `finally` block removes nothing, and the failed run
ends with the mkstemp file on disk.  This is why `main_run_temp` must assume
the render stage returned. -/
theorem main_run_render_write_leak :
    (main_run { envAllOk with render := some .writeRaises }
      argsPassword fsEmpty).result = .renderError ∧
    (main_run { envAllOk with render := some .writeRaises }
      argsPassword fsEmpty).fs.temp_butane = true :=
  ⟨rfl, rfl⟩

theorem main_run_ok_temp (env : Env) (args : Args) (fs0 : FS)
    (h : (main_run env args fs0).result = .ok) :
    (main_run env args fs0).fs.temp_butane = false := by
  unfold main_run at h ⊢
  cases hc : (pyTruthy args.password ||
      !((args.github_ssh_user.map env.fetch_keys).flatten).isEmpty) with
  | false => simp [hc] at h
  | true =>
    cases hr : env.render with
    | none => simp [hc, hr] at h
    | some s =>
      cases s with
      | fdopenRaises => simp [hc, hr, writeRenderedTemp] at h
      | writeRaises => simp [hc, hr, writeRenderedTemp] at h
      | ok => simp [hc, hr, writeRenderedTemp, afterRender_temp]

/-! ## The claims -/

/-- C1: counterexample — with the cached base image present and every stage
succeeding, the run exits 0 yet the cached base image `fedora-coreos.iso` is
absent afterwards: the success path of `main` (lines 320-321) removes it.
The claim that a successful run leaves the cached base image in place is
therefore false on this code. -/
theorem cached_base_removed_on_success :
    fsWithCache.fedora_iso = true ∧
    (main_run envAllOk argsPassword fsWithCache).result = .ok ∧
    (main_run envAllOk argsPassword fsWithCache).fs.fedora_iso = false :=
  ⟨rfl, rfl, rfl⟩

/-- C1 (amended): after a successful run the rendered-template temporary
file, the intermediate minimal image AND the cached base image are all
absent — the success path removes `minimal.iso` and then `fedora-coreos.iso`
(lines 317-321) and the `finally` block removes the temporary file — so the
cached base image survives only runs that fail after downloading it, not
successful runs. -/
theorem main_success_cleanup (env : Env) (args : Args) (fs0 : FS)
    (h : (main_run env args fs0).result = .ok) :
    (main_run env args fs0).fs.temp_butane = false ∧
    (main_run env args fs0).fs.minimal_iso = false ∧
    (main_run env args fs0).fs.fedora_iso = false :=
  ⟨main_run_ok_temp env args fs0 h, (main_run_ok_fs env args fs0 h).1,
   (main_run_ok_fs env args fs0 h).2⟩

theorem main_success_cleanup_witness :
    (main_run envAllOk argsPassword fsWithCache).result = .ok ∧
    ((main_run envAllOk argsPassword fsWithCache).fs.temp_butane = false ∧
     (main_run envAllOk argsPassword fsWithCache).fs.minimal_iso = false ∧
     (main_run envAllOk argsPassword fsWithCache).fs.fedora_iso = false) :=
  ⟨rfl, main_success_cleanup envAllOk argsPassword fsWithCache rfl⟩

/-- C3: counterexample — a run in which everything up to and including the
extract stage succeeds but the customize tool fails ends with the
intermediate `minimal.iso` still on disk: only the success path (lines
317-318) removes it; the `finally` block removes the rendered template
only. -/
theorem minimal_iso_survives_failed_run :
    (main_run envCustomizeFails argsPassword fsEmpty).result =
      .toolFailed .customize ∧
    (main_run envCustomizeFails argsPassword fsEmpty).fs.minimal_iso = true ∧
    (main_run envCustomizeFails argsPassword fsEmpty).fs.temp_butane = false :=
  ⟨rfl, rfl, rfl⟩

/-- C3 (amended): for runs that succeed or fail at any stage after the
transient files' creation, only the rendered-template temporary file is
guaranteed gone: once `template_butane` has returned it (its creation
completed, `env.render = some .ok`), the `finally` block removes it whether
the pipeline then succeeds or fails at any later stage (given mkstemp
freshness, i.e. the file did not pre-exist); the intermediate minimal image,
by contrast, is only removed by a successful run — a run failing after its
creation (at the customize stage) leaves it behind, deleted again only at
the start of a subsequent run's extract stage.  (A failure *during* the
temporary file's own creation can leak it — the write-failure bug of lines
100-110 — which the "after their creation" scoping leaves out.) -/
theorem main_transient_cleanup (env : Env) (args : Args) (fs0 : FS)
    (h0 : fs0.temp_butane = false) (hr : env.render = some .ok) :
    (main_run env args fs0).fs.temp_butane = false ∧
    ((main_run env args fs0).result = .ok →
      (main_run env args fs0).fs.minimal_iso = false) :=
  ⟨main_run_temp env args fs0 h0 hr,
   fun h => (main_run_ok_fs env args fs0 h).1⟩

theorem main_transient_cleanup_witness :
    fsEmpty.temp_butane = false ∧
    envCustomizeFails.render = some .ok ∧
    (main_run envCustomizeFails argsPassword fsEmpty).fs.temp_butane = false :=
  ⟨rfl, rfl,
   (main_transient_cleanup envCustomizeFails argsPassword fsEmpty rfl rfl).1⟩

/-- C4: when no password is supplied and every requested identity yields no
keys, the run fails with the credential-required `ValueError` (the spec's
`ConfigurationError`) and no external tool — compile, validate, download,
extract or customize — is ever invoked (the tool trace is empty). -/
theorem main_credential_required (env : Env) (args : Args) (fs0 : FS)
    (hpw : args.password = none)
    (hkeys : ∀ u ∈ args.github_ssh_user, env.fetch_keys u = []) :
    (main_run env args fs0).result = .configError ∧
    (main_run env args fs0).tools = [] := by
  have hflat : ((args.github_ssh_user.map env.fetch_keys).flatten) = [] := by
    apply List.flatten_eq_nil_iff.mpr
    intro l hl
    rcases List.mem_map.mp hl with ⟨u, hu, rfl⟩
    exact hkeys u hu
  unfold main_run
  rw [hpw]
  simp [pyTruthy, hflat]

theorem main_credential_required_witness :
    (main_run envAllOk argsNoCreds fsEmpty).result = .configError ∧
    (main_run envAllOk argsNoCreds fsEmpty).tools = [] :=
  main_credential_required envAllOk argsNoCreds fsEmpty rfl (fun _ _ => rfl)

/-- C5: when the cached base image file already exists at the start of the
run, the download stage is skipped entirely — the downloader never appears
in the external-tool trace of that run, whatever else happens. -/
theorem main_cached_base_skips_download (env : Env) (args : Args) (fs0 : FS)
    (hcache : fs0.fedora_iso = true) :
    Tool.download ∉ (main_run env args fs0).tools := by
  intro hmem
  unfold main_run at hmem
  cases hc : (pyTruthy args.password ||
      !((args.github_ssh_user.map env.fetch_keys).flatten).isEmpty) with
  | false => rw [hc] at hmem; simp at hmem
  | true =>
    cases hr : env.render with
    | none => rw [hc, hr] at hmem; simp at hmem
    | some s =>
      rw [hc, hr] at hmem
      cases s with
      | fdopenRaises => simp [writeRenderedTemp] at hmem
      | writeRaises => simp [writeRenderedTemp] at hmem
      | ok =>
        simp only [writeRenderedTemp, if_true] at hmem
        refine afterRender_no_download env (mkRenderCtx env args)
          { fs0 with temp_butane := true } (by simpa using hcache) ?_
        simpa using hmem

theorem main_cached_base_skips_download_witness :
    fsWithCache.fedora_iso = true ∧
    Tool.download ∉ (main_run envAllOk argsPassword fsWithCache).tools :=
  ⟨rfl, main_cached_base_skips_download envAllOk argsPassword fsWithCache rfl⟩

/-- C6: the per-identity key lists are merged into a single deduplicated,
lexicographically sorted list before rendering: whenever `main` reaches the
render, the `ssh_keys` it passes is exactly `sorted(set(...))` of the
concatenated fetches — sorted, duplicate-free, containing exactly the keys
some requested identity yielded, invariant under reordering of the fetched
keys, and equal to k1,k2,k3 on the spec's alice/bob example in either fetch
order. -/
theorem merged_keys_spec :
    (∀ env args fs0 ctx, (main_run env args fs0).rendered = some ctx →
        ctx.ssh_keys = mergedSshKeys env.fetch_keys args.github_ssh_user) ∧
    (∀ (fetch : String → List String) (users : List String),
        (mergedSshKeys fetch users).Sorted pyStrLeR ∧
        (mergedSshKeys fetch users).Nodup ∧
        (∀ k, k ∈ mergedSshKeys fetch users ↔ ∃ u ∈ users, k ∈ fetch u)) ∧
    (∀ (f1 f2 : String → List String) (us1 us2 : List String),
        ((us1.map f1).flatten).Perm ((us2.map f2).flatten) →
        mergedSshKeys f1 us1 = mergedSshKeys f2 us2) ∧
    mergedSshKeys exampleFetch ["alice", "bob"] = ["k1", "k2", "k3"] ∧
    mergedSshKeys exampleFetch ["bob", "alice"] = ["k1", "k2", "k3"] := by
  refine ⟨?_, ?_, ?_, by rfl, by rfl⟩
  · intro env args fs0 ctx h
    rcases main_run_rendered env args fs0 with hr | hr
    · rw [hr] at h; exact absurd h (by simp)
    · rw [hr] at h
      injection h with h
      rw [← h]
      rfl
  · intro fetch users
    refine ⟨pySortedSet_sorted _, pySortedSet_nodup _, fun k => ?_⟩
    unfold mergedSshKeys
    rw [pySortedSet_mem, List.mem_flatten]
    constructor
    · rintro ⟨l, hl, hk⟩
      rcases List.mem_map.mp hl with ⟨u, hu, rfl⟩
      exact ⟨u, hu, hk⟩
    · rintro ⟨u, hu, hk⟩
      exact ⟨fetch u, List.mem_map_of_mem _ hu, hk⟩
  · intro f1 f2 us1 us2 hperm
    unfold mergedSshKeys
    exact pySortedSet_eq_of_mem_iff (fun a => hperm.mem_iff)

theorem merged_keys_spec_witness :
    (mkRenderCtx envAllOk argsPassword).ssh_keys =
      mergedSshKeys envAllOk.fetch_keys argsPassword.github_ssh_user ∧
    mergedSshKeys exampleFetch ["alice", "bob"] =
      mergedSshKeys exampleFetch ["bob", "alice"] :=
  ⟨merged_keys_spec.1 envAllOk argsPassword fsWithCache
      (mkRenderCtx envAllOk argsPassword) rfl,
   merged_keys_spec.2.2.1 exampleFetch exampleFetch ["alice", "bob"]
      ["bob", "alice"] (by decide)⟩

/-- C2: counterexample — the `Environment` of lines 61-65 is built without
`undefined=StrictUndefined`, so a template referencing the undefined variable
"oops" renders successfully, substituting a silent blank, instead of failing
with a `TemplateRenderError`. -/
theorem render_undefined_no_error :
    lookupStr exampleCtx "oops" = none ∧
    jinjaRenderDefault exampleCtx [.lit "x=", .var "oops"] = "x=" ∧
    template_butane ["server.bu.j2"] "server.bu.j2" exampleCtx
        [.lit "x=", .var "oops"] =
      .ok { temp_path := freshTempName ["server.bu.j2"], content := "x=" } :=
  ⟨rfl, rfl, rfl⟩

/-- C2 (amended): a template variable reference not present in the context is
substituted by the empty string (the Jinja2 default `Undefined`), never a
fatal error; with the source template present, render always succeeds and
returns a fresh file path distinct from every existing file, in particular
from the source template. -/
theorem template_butane_renders (fs : List String) (bf : String)
    (ctx : List (String × String)) (tmpl : List TemplateNode) (hbf : bf ∈ fs) :
    template_butane fs bf ctx tmpl =
      .ok { temp_path := freshTempName fs,
            content := jinjaRenderDefault ctx tmpl } ∧
    freshTempName fs ∉ fs ∧
    freshTempName fs ≠ bf ∧
    (∀ n rest, lookupStr ctx n = none →
        jinjaRenderDefault ctx (.var n :: rest) = jinjaRenderDefault ctx rest) := by
  refine ⟨?_, freshTempName_not_mem fs, ?_, ?_⟩
  · unfold template_butane
    rw [if_pos hbf]
  · intro he
    exact freshTempName_not_mem fs (he ▸ hbf)
  · intro n rest hn
    have h1 : jinjaRenderDefault ctx (TemplateNode.var n :: rest) =
        "" ++ jinjaRenderDefault ctx rest := by
      simp [jinjaRenderDefault, hn]
    rw [h1]
    cases jinjaRenderDefault ctx rest
    rfl

theorem template_butane_renders_witness :
    "server.bu.j2" ∈ ["server.bu.j2"] ∧
    template_butane ["server.bu.j2"] "server.bu.j2" exampleCtx [] =
      .ok { temp_path := freshTempName ["server.bu.j2"], content := "" } ∧
    freshTempName ["server.bu.j2"] ≠ "server.bu.j2" :=
  ⟨by decide,
   (template_butane_renders ["server.bu.j2"] "server.bu.j2" exampleCtx []
      (by decide)).1,
   (template_butane_renders ["server.bu.j2"] "server.bu.j2" exampleCtx []
      (by decide)).2.2.1⟩

/-- C7: `manifest_files` on an absent subdirectory yields the empty list and
no error; on a directory it yields exactly the names of the regular,
non-hidden entries whose lowercased suffix is `.yaml` or `.yml`, in
lexicographic order; the worked example a.yaml / b.txt / .hidden.yaml yields
exactly ["a.yaml"]. -/
theorem manifest_files_spec :
    manifest_files .absent = .ok [] ∧
    (∀ entries, ∃ l, manifest_files (.directory entries) = .ok l ∧
        l.Sorted pyStrLeR ∧
        (∀ n, n ∈ l ↔ ∃ e, e ∈ entries ∧ e.name = n ∧ e.isFile = true ∧
            startsWithDot e.name = false ∧
            (pyLower (pySuffix e.name) = ".yaml" ∨
             pyLower (pySuffix e.name) = ".yml"))) ∧
    manifest_files (.directory exampleManifestsDir) = .ok ["a.yaml"] := by
  refine ⟨rfl, ?_, by rfl⟩
  intro entries
  refine ⟨pySorted ((entries.filter manifestKeep).map DirEntry.name), rfl,
    pySorted_sorted _, fun n => ?_⟩
  rw [pySorted_mem, List.mem_map]
  constructor
  · rintro ⟨e, he, rfl⟩
    obtain ⟨h1, hk⟩ := List.mem_filter.mp he
    have hk2 : (e.isFile = true ∧ startsWithDot e.name = false) ∧
        (pyLower (pySuffix e.name) = ".yaml" ∨
         pyLower (pySuffix e.name) = ".yml") := by
      simpa [manifestKeep] using hk
    exact ⟨e, h1, rfl, hk2.1.1, hk2.1.2, hk2.2⟩
  · rintro ⟨e, he, rfl, hf, hd, hy⟩
    refine ⟨e, List.mem_filter.mpr ⟨he, ?_⟩, rfl⟩
    rcases hy with hy | hy <;> simp [manifestKeep, hf, hd, hy]

/-- C8: `hash_password_sha512` rejects the empty password with a `ValueError`
(the spec's `InvalidInputError`) and returns the library hash for every
non-empty password. -/
theorem hash_password_sha512_spec (sha512CryptHash : String → String) :
    hash_password_sha512 sha512CryptHash "" =
      .error (.valueError "Password must not be empty") ∧
    ∀ p, p ≠ "" →
      hash_password_sha512 sha512CryptHash p = .ok (sha512CryptHash p) := by
  refine ⟨rfl, fun p hp => ?_⟩
  unfold hash_password_sha512
  rw [if_neg hp]

theorem hash_password_sha512_spec_witness :
    hash_password_sha512 (fun p => "$6$modelsalt$" ++ p) "hunter2" =
      .ok ("$6$modelsalt$" ++ "hunter2") :=
  (hash_password_sha512_spec (fun p => "$6$modelsalt$" ++ p)).2 "hunter2"
    (by decide)

/-- C9: `resolve_latest_fcos_release` fails when the metadata document is
unreachable, when the status is not 200, when the body is malformed JSON, or
when the nested `architectures/<arch>/artifacts/metal/release` field is
missing; when that field holds a non-empty string the function returns
exactly that string. -/
theorem resolve_latest_fcos_release_spec :
    (∀ s a, resolve_latest_fcos_release .unreachable s a =
        .error .unreachable) ∧
    (∀ s a code parsed, code ≠ 200 →
        resolve_latest_fcos_release (.resp code parsed) s a =
          .error (.non200 code)) ∧
    (∀ s a, resolve_latest_fcos_release (.resp 200 none) s a =
        .error .malformed) ∧
    (∀ s a data, releasePathLookup data a = none →
        resolve_latest_fcos_release (.resp 200 (some data)) s a =
          .error .missingRelease) ∧
    (∀ s a data rel, releasePathLookup data a = some (.str rel) → rel ≠ "" →
        resolve_latest_fcos_release (.resp 200 (some data)) s a =
          .ok (.str rel)) := by
  refine ⟨fun s a => rfl, ?_, fun s a => rfl, ?_, ?_⟩
  · intro s a code parsed hc
    unfold resolve_latest_fcos_release fetch_json
    simp [hc]
  · intro s a data h
    unfold resolve_latest_fcos_release fetch_json
    simp [h]
  · intro s a data rel h hne
    unfold resolve_latest_fcos_release fetch_json
    simp [h, Json.truthy, hne]

theorem resolve_latest_fcos_release_spec_witness :
    resolve_latest_fcos_release (.resp 200 (some exampleStreamDoc))
        "stable" "x86_64" = .ok (.str "42.20250101.3.0") ∧
    resolve_latest_fcos_release (.resp 404 none) "stable" "x86_64" =
      .error (.non200 404) :=
  ⟨resolve_latest_fcos_release_spec.2.2.2.2 "stable" "x86_64"
      exampleStreamDoc "42.20250101.3.0" rfl (by decide),
   resolve_latest_fcos_release_spec.2.1 "stable" "x86_64" 404 none (by decide)⟩

/-- C10: on the failing input — `f.write` raising after `os.fdopen`
succeeded (scenario `writeRaises`, e.g. a full disk) — the exception
propagates but the temporary file still exists: the handler's
`os.close(temp_fd)` hits a descriptor the `with` suite already closed,
raising `OSError` before `os.unlink` runs, contradicting the claim (and the
handler's evident intent) that a failed render deletes the temporary file.
The `fdopenRaises` scenario, whose descriptor is still open when the handler
runs, does delete it; the success scenario keeps it, as it must. -/
theorem writeRenderedTemp_leak :
    writeRenderedTemp .writeRaises =
      { raised := true, final := { fdOpen := false, fileExists := true } } ∧
    writeRenderedTemp .fdopenRaises =
      { raised := true, final := { fdOpen := false, fileExists := false } } ∧
    writeRenderedTemp .ok =
      { raised := false, final := { fdOpen := false, fileExists := true } } :=
  ⟨rfl, rfl, rfl⟩
